import Mathlib

set_option maxHeartbeats 1000000

/-!
Shallow embedding of xlsx2csv (src/main.rs): sheet selection, delimiter
parsing, the row projection and the output routing of main.

External collaborators (the calamine workbook decoder, the regex engine,
the csv writer, the file system) are modelled abstractly: a workbook is its
reported sheet-name list plus a map from sheet name to cell range, a
compiled regex is its matcher function, and a csv writer is the list of
records written to it together with a flush counter. Panics are modelled
as error results.
-/

/-- Select sheet by id or by name (enum SheetSelector in main.rs). -/
inductive SheetSelector where
  | ById (id : Nat)
  | ByName (name : String)
deriving DecidableEq

/-- Decimal accumulation over a digit list, as Rust's integer FromStr does. -/
def digitsVal (cs : List Char) : Nat :=
  cs.foldl (fun acc c => acc * 10 + (c.toNat - 48)) 0

/-- Model of str.parse::<usize>() as used by SheetSelector::from_str: an
optional leading plus sign, then one or more ASCII digits, with the value
below 2^64 (usize on the usual 64-bit target); anything else (empty text,
a non-digit character, overflow) fails. -/
def parseUsize (s : String) : Option Nat :=
  let cs := match s.data with
    | '+' :: rest => rest
    | cs => cs
  if cs.isEmpty then none
  else if cs.all Char.isDigit then
    if digitsVal cs < 2 ^ 64 then some (digitsVal cs) else none
  else none

/-- SheetSelector::from_str: try the numeric parse first (ById), otherwise
fall back to ByName with the literal text; it never returns an error. -/
def SheetSelector.from_str (s : String) : Except String SheetSelector :=
  match parseUsize s with
  | some id => .ok (.ById id)
  | none => .ok (.ByName s)

/-- SheetSelector::find_in: resolve the selector against the workbook's
sheet-name list, with the exact error texts of main.rs. -/
def SheetSelector.find_in (sel : SheetSelector) (sheetnames : List String) :
    Except String String :=
  match sel with
  | .ById id =>
    if h : sheetnames.length ≤ id then
      .error ("sheet id `" ++ toString id ++ "` is not valid - only **" ++
        toString sheetnames.length ++ "** sheets avaliable!")
    else
      .ok (sheetnames.get ⟨id, Nat.lt_of_not_le h⟩)
  | .ByName name =>
    match sheetnames.find? (fun s => s = name) with
    | some found => .ok found
    | none =>
      .error ("sheet name `" ++ name ++ "` is not in (" ++
        String.intercalate ", " sheetnames ++ ")")

/-- struct Delimiter(pub u8): the stored field-separator byte. -/
structure Delimiter where
  byte : Nat
deriving DecidableEq

/-- Delimiter::as_byte. -/
def Delimiter.as_byte (d : Delimiter) : Nat := d.byte

/-- Delimiter::to_file_extension: tab gives "tsv", every other byte "csv". -/
def Delimiter.to_file_extension (d : Delimiter) : String :=
  match d.byte with
  | 9 => "tsv"
  | _ => "csv"

/-- Byte count of the UTF-8 encoding of one character; the unit in which
Rust's str::len counts. -/
def charBytes (c : Char) : Nat :=
  if c.toNat ≤ 0x7F then 1
  else if c.toNat ≤ 0x7FF then 2
  else if c.toNat ≤ 0xFFFF then 3
  else 4

/-- Model of Rust str::len: the total UTF-8 byte count of the text. -/
def rustLen (s : String) : Nat := (s.data.map charBytes).sum

/-- Model of Rust char::is_ascii: the code point is at most 0x7F. -/
def asciiChar (c : Char) : Bool := c.toNat ≤ 127

/-- Delimiter::from_str: the two escape literals first, then the
single-byte check (str::len counts bytes), then the ASCII check on the
first character. The final arm models the unwrap on an empty string,
which the length check makes unreachable. -/
def Delimiter.from_str (s : String) : Except String Delimiter :=
  if s = "\\t" then .ok ⟨9⟩
  else if s = "\\n" then .ok ⟨10⟩
  else if rustLen s ≠ 1 then
    .error ("Could not convert '" ++ s ++ "' to a single ASCII character.")
  else
    match s.data with
    | c :: _ =>
      if asciiChar c then .ok ⟨c.toNat⟩
      else .error ("Could not convert '" ++ String.singleton c ++ "' to ASCII delimiter.")
    | [] => .error "Could not convert '' to a single ASCII character."

/-- An external f64 cell value as this program observes it: the code only
ever formats the float through Display, so the value is represented by
that display text (the f64 2.5 displays as "2.5"). -/
structure F64 where
  display : String
deriving DecidableEq

/-- Cell values as reported by the external workbook decoder (calamine's
DataType): the four kinds the program renders, plus the remaining kinds
(date-time, error and empty cells) that the catch-all arm maps to the
empty string. The error payload is never observed, so it is not
modelled. -/
inductive DataType where
  | Int (i : Int)
  | Float (f : F64)
  | String (s : String)
  | Bool (b : Bool)
  | DateTime (f : F64)
  | Error
  | Empty
deriving DecidableEq

/-- The per-cell rendering inside worksheet_to_csv's row map: each of the
four known kinds through its Display text, every other kind as the empty
string. -/
def cellToString : DataType → String
  | .Int c => toString c
  | .Float c => c.display
  | .String c => c
  | .Bool c => toString c
  | _ => ""

/-- Row Projector: one display string per cell, in order (the map inside
worksheet_to_csv). -/
def projectRow (row : List DataType) : List String := row.map cellToString

/-- The observable state of a csv::Writer: the records written, in order,
plus how many times the writer was flushed. -/
structure CsvWriter where
  records : List (List String)
  flushes : Nat
deriving DecidableEq

/-- csv::Writer::write_record. -/
def CsvWriter.writeRecord (w : CsvWriter) (r : List String) : CsvWriter :=
  ⟨w.records ++ [r], w.flushes⟩

/-- csv::Writer::flush. -/
def CsvWriter.flush (w : CsvWriter) : CsvWriter :=
  ⟨w.records, w.flushes + 1⟩

/-- A freshly opened writer: nothing written, never flushed. -/
def emptyWriter : CsvWriter := ⟨[], 0⟩

/-- A calamine Range as this program observes it: the reported dimensions
(get_size, height then width) and the rows of typed cells. -/
structure Range where
  size : Nat × Nat
  rows : List (List DataType)
deriving DecidableEq

/-- The body of worksheet_to_csv once the range is in hand: return the
writer untouched when a reported dimension is zero, otherwise write every
projected row and flush once at the end. -/
def rangeToCsv (range : Range) (wtr : CsvWriter) : CsvWriter :=
  if range.size.1 = 0 ∨ range.size.2 = 0 then wtr
  else (range.rows.foldl (fun w row => w.writeRecord (projectRow row)) wtr).flush

/-- A decoded workbook as the program observes it: the reported sheet-name
list and, for each sheet name, the range worksheet_range would return
(none models a failed lookup, which the code turns into a panic). -/
structure Workbook where
  sheet_names : List String
  ranges : String → Option Range

/-- worksheet_to_csv: look the sheet's range up (the expect on a failed
lookup is a panic, modelled as the error case) and convert it. -/
def worksheet_to_csv (wb : Workbook) (sheet : String) (wtr : CsvWriter) :
    Except String CsvWriter :=
  match wb.ranges sheet with
  | some range => .ok (rangeToCsv range wtr)
  | none => .error ("find sheet " ++ sheet)

/-- startsL p s: p is a leading run of s, character for character. -/
def startsL : List Char → List Char → Bool
  | [], _ => true
  | _ :: _, [] => false
  | a :: as, b :: bs => a = b && startsL as bs

/-- hasSub p s: p occurs contiguously somewhere inside s. -/
def hasSub (p : List Char) : List Char → Bool
  | [] => startsL p []
  | c :: t => startsL p (c :: t) || hasSub p t

/-- Modelled from the regex crate's semantics on the literal patterns the
spec's example uses: is_match for a pattern with no metacharacters is
substring containment. -/
def litMatch (pat s : String) : Bool := hasSub pat.data s.data

/-- The two chained filters of the use_sheet_names branch of main: the
include filter first (an absent pattern keeps everything), the exclude
filter second (an absent pattern excludes nothing). A compiled regex is
modelled by its matcher function. -/
def namedSurvivors (sheetnames : List String)
    (include_pattern exclude_pattern : Option (String → Bool)) : List String :=
  (sheetnames.filter fun name =>
      (include_pattern.map fun r => r name).getD true).filter
    fun name => (exclude_pattern.map fun r => !(r name)).getD true

/-- The validated configuration (struct Opt) after the external option
parser ran. include_pattern and exclude_pattern hold the compiled
matchers: the RegexBuilder step happens in the external regex crate, and
ignore_case is consumed only by that external build, so it is recorded
but drives no logic here. -/
structure Opt where
  output : List String
  list : Bool
  select : Option SheetSelector
  use_sheet_names : Bool
  workdir : Option String
  include_pattern : Option (String → Bool)
  exclude_pattern : Option (String → Bool)
  ignore_case : Bool
  delimiter : Delimiter

/-- Model of PathBuf::join for the paths main builds: an empty working
directory (PathBuf::new) leaves the file name alone, otherwise the
directory is glued on with a separator. -/
def pathJoin (dir file : String) : String :=
  if dir = "" then file else dir ++ "/" ++ file

/-- What a run of main is observed to do once the workbook is open: abort
with a panic message, print the sheet list, write one sheet to stdout, or
write a sequence of files (each output path paired with the records
written there; the path is also printed as a progress line, in order). -/
inductive RunResult where
  | aborted (msg : String)
  | listed (lines : List String)
  | stdout (w : CsvWriter)
  | files (written : List (String × CsvWriter))
deriving DecidableEq

/-- The per-file loops of main: for each (sheet, path) pair open a fresh
writer on the path and run worksheet_to_csv into it; a lookup panic
aborts the whole run. -/
def writeSheets (wb : Workbook) :
    List (String × String) → Except String (List (String × CsvWriter))
  | [] => .ok []
  | (sheet, output) :: rest =>
    match worksheet_to_csv wb sheet emptyWriter with
    | .error e => .error e
    | .ok w =>
      match writeSheets wb rest with
      | .error e => .error e
      | .ok ws => .ok ((output, w) :: ws)

/-- main, from the point the workbook is open: the zero-sheet guard, then
the four-way routing (list mode, named-files mode, single-stream mode,
positional-files mode), in the code's order. -/
def runMain (opt : Opt) (wb : Workbook) : RunResult :=
  let sheetnames := wb.sheet_names
  if sheetnames.isEmpty then .aborted "input file has zero sheet!"
  else if opt.list then .listed sheetnames
  else if opt.use_sheet_names then
    let ext := opt.delimiter.to_file_extension
    let workdir := opt.workdir.getD ""
    let survivors := namedSurvivors sheetnames opt.include_pattern opt.exclude_pattern
    match writeSheets wb
        (survivors.map fun sheet => (sheet, pathJoin workdir (sheet ++ "." ++ ext))) with
    | .error e => .aborted e
    | .ok ws => .files ws
  else if opt.output.isEmpty then
    match opt.select with
    | some sel =>
      match sel.find_in sheetnames with
      | .error e => .aborted ("invalid selector: " ++ e)
      | .ok name =>
        match worksheet_to_csv wb name emptyWriter with
        | .error e => .aborted e
        | .ok w => .stdout w
    | none =>
      match worksheet_to_csv wb (sheetnames.headD "") emptyWriter with
      | .error e => .aborted e
      | .ok w => .stdout w
  else
    match writeSheets wb (sheetnames.zip opt.output) with
    | .error e => .aborted e
    | .ok ws => .files ws

/-- The writer produced for one sheet whose range lookup succeeds. -/
def convertSheet (wb : Workbook) (sheet : String) : CsvWriter :=
  match wb.ranges sheet with
  | some range => rangeToCsv range emptyWriter
  | none => emptyWriter

/-- The file list the positional-files branch produces: sheets zipped with
output paths, each pair becoming (path, converted sheet). -/
def positionalFiles (wb : Workbook) (opt : Opt) : List (String × CsvWriter) :=
  (wb.sheet_names.zip opt.output).map fun p => (p.2, convertSheet wb p.1)

/-- The file list the named-files branch produces: each surviving sheet
becomes (workdir-joined name with the delimiter-derived extension,
converted sheet). -/
def namedFiles (wb : Workbook) (opt : Opt) : List (String × CsvWriter) :=
  (namedSurvivors wb.sheet_names opt.include_pattern opt.exclude_pattern).map
    fun sheet =>
      (pathJoin (opt.workdir.getD "")
        (sheet ++ "." ++ opt.delimiter.to_file_extension), convertSheet wb sheet)

deriving instance DecidableEq for Except

/-- A workbook whose single sheet reports zero rows. -/
def wbZero : Workbook := ⟨["s"], fun _ => some ⟨(0, 3), []⟩⟩

/-- A configuration with the list flag set. -/
def optList : Opt := ⟨[], true, none, false, none, none, none, false, ⟨44⟩⟩

/-- A workbook reporting no sheets at all. -/
def wbNoSheets : Workbook := ⟨[], fun _ => none⟩

/-- A workbook with the spec example's three sheets, each a 1x1 grid. -/
def wbNamed : Workbook := ⟨["Sheet1", "Data", "SheetX"], fun _ => some ⟨(1, 1), [[.Int 7]]⟩⟩

/-- A named-files configuration with the spec example's two patterns. -/
def optNamed : Opt :=
  ⟨[], false, none, true, none, some (litMatch "Sheet"), some (litMatch "X"), false, ⟨44⟩⟩

/-- A workbook with three one-cell sheets. -/
def wbPos : Workbook := ⟨["s1", "s2", "s3"], fun _ => some ⟨(1, 1), [[.Int 7]]⟩⟩

/-- A positional configuration with two output paths. -/
def optPos : Opt := ⟨["o1", "o2"], false, none, false, none, none, none, false, ⟨44⟩⟩

/-- If n is in the list, find? with equality-to-n returns n itself. -/
theorem find_self (n : String) : ∀ (names : List String), n ∈ names →
    names.find? (fun s => s = n) = some n := by
  intro names h
  induction names with
  | nil => cases h
  | cons a t ih =>
    by_cases ha : a = n
    · subst ha
      rw [List.find?_cons_of_pos]
      simp
    · rw [List.find?_cons_of_neg]
      · refine ih ?_
        rcases List.mem_cons.mp h with he | ht
        · exact absurd he.symm ha
        · exact ht
      · simp [ha]

/-- C3: ById(i) resolves to names[i] when i is in range, and otherwise
fails with the out-of-range error that reports the available count. -/
theorem by_id_resolution (names : List String) (i : Nat) :
    (∀ h : i < names.length,
      (SheetSelector.ById i).find_in names = .ok (names.get ⟨i, h⟩)) ∧
    (names.length ≤ i →
      (SheetSelector.ById i).find_in names =
        .error ("sheet id `" ++ toString i ++ "` is not valid - only **" ++
          toString names.length ++ "** sheets avaliable!")) := by
  constructor
  · intro h
    simp only [SheetSelector.find_in]
    rw [dif_neg (Nat.not_le.mpr h)]
  · intro h
    simp only [SheetSelector.find_in]
    rw [dif_pos h]

/-- Witness for by_id_resolution at a concrete sheet list. -/
theorem by_id_resolution_witness :
    (SheetSelector.ById 1).find_in ["A", "B", "C"] = .ok "B" ∧
    (SheetSelector.ById 3).find_in ["A", "B", "C"] =
      .error "sheet id `3` is not valid - only **3** sheets avaliable!" := by
  constructor
  · exact (by_id_resolution ["A", "B", "C"] 1).1 (by decide)
  · exact (by_id_resolution ["A", "B", "C"] 3).2 (by decide)

/-- C4: ByName(n) resolves to n exactly when n occurs verbatim in the
list; otherwise it fails with the error listing every available name. -/
theorem by_name_resolution (names : List String) (n : String) :
    (n ∈ names → (SheetSelector.ByName n).find_in names = .ok n) ∧
    (n ∉ names →
      (SheetSelector.ByName n).find_in names =
        .error ("sheet name `" ++ n ++ "` is not in (" ++
          String.intercalate ", " names ++ ")")) := by
  constructor
  · intro h
    simp only [SheetSelector.find_in]
    rw [find_self n names h]
  · intro h
    simp only [SheetSelector.find_in]
    rw [List.find?_eq_none.mpr ?_]
    intro x hx
    simp only [decide_eq_true_eq]
    intro he
    exact h (he ▸ hx)

/-- Witness for by_name_resolution at a concrete sheet list. -/
theorem by_name_resolution_witness :
    (SheetSelector.ByName "B").find_in ["A", "B"] = .ok "B" ∧
    (SheetSelector.ByName "Z").find_in ["A", "B"] =
      .error "sheet name `Z` is not in (A, B)" := by
  constructor
  · exact (by_name_resolution ["A", "B"] "B").1 (by decide)
  · exact (by_name_resolution ["A", "B"] "Z").2 (by decide)

/-- C5: selector parsing is total and numeric-first: a successful usize
parse yields ById, anything else yields ByName of the literal text, and
the text "3" in particular becomes ById 3. -/
theorem selector_parse_total :
    (∀ (s : String) (n : Nat), parseUsize s = some n →
      SheetSelector.from_str s = .ok (.ById n)) ∧
    (∀ s : String, parseUsize s = none →
      SheetSelector.from_str s = .ok (.ByName s)) ∧
    (∀ s : String, ∃ sel, SheetSelector.from_str s = .ok sel) ∧
    SheetSelector.from_str "3" = .ok (.ById 3) := by
  refine ⟨?_, ?_, ?_, by decide⟩
  · intro s n h
    unfold SheetSelector.from_str
    rw [h]
  · intro s h
    unfold SheetSelector.from_str
    rw [h]
  · intro s
    unfold SheetSelector.from_str
    cases parseUsize s <;> exact ⟨_, rfl⟩

/-- Witness for selector_parse_total on a numeric and a non-numeric text. -/
theorem selector_parse_total_witness :
    SheetSelector.from_str "3" = .ok (.ById 3) ∧
    SheetSelector.from_str "Data" = .ok (.ByName "Data") :=
  ⟨selector_parse_total.1 "3" 3 (by decide),
   selector_parse_total.2.1 "Data" (by decide)⟩

/-- C7: the output extension is a pure function of the stored byte: tab
gives "tsv" and every other byte gives "csv". -/
theorem extension_pure_function :
    (∀ b : Nat, Delimiter.to_file_extension ⟨b⟩ = if b = 9 then "tsv" else "csv") ∧
    Delimiter.to_file_extension ⟨9⟩ = "tsv" ∧
    Delimiter.to_file_extension ⟨44⟩ = "csv" ∧
    Delimiter.to_file_extension ⟨59⟩ = "csv" ∧
    Delimiter.to_file_extension ⟨124⟩ = "csv" := by
  refine ⟨?_, by decide, by decide, by decide, by decide⟩
  intro b
  by_cases h : b = 9
  · subst h; rfl
  · unfold Delimiter.to_file_extension
    split
    · simp_all
    · simp [h]

/-- C8: the row projector yields one display string per cell, in order,
with each known kind rendered through its Display text and every other
kind rendered as the empty string. -/
theorem row_projection_contract :
    (∀ row : List DataType, projectRow row = row.map cellToString) ∧
    (∀ row : List DataType, (projectRow row).length = row.length) ∧
    (∀ i : Int, cellToString (.Int i) = toString i) ∧
    (∀ f : F64, cellToString (.Float f) = f.display) ∧
    (∀ s : String, cellToString (.String s) = s) ∧
    (∀ b : Bool, cellToString (.Bool b) = toString b) ∧
    (∀ f : F64, cellToString (.DateTime f) = "") ∧
    cellToString .Error = "" ∧
    cellToString .Empty = "" ∧
    projectRow [.Int 1, .Float ⟨"2.5"⟩, .String "x", .Bool true, .Empty] =
      ["1", "2.5", "x", "true", ""] := by
  refine ⟨fun row => rfl, fun row => ?_, fun i => rfl, fun f => rfl,
    fun s => rfl, fun b => rfl, fun f => rfl, rfl, rfl, by decide⟩
  simp [projectRow]

/-- C9: a range with a zero reported dimension produces no records and no
flush: the writer comes back exactly as it went in, with no error. -/
theorem zero_dimension_no_records (wb : Workbook) (sheet : String) (range : Range)
    (wtr : CsvWriter) (hfind : wb.ranges sheet = some range)
    (hz : range.size.1 = 0 ∨ range.size.2 = 0) :
    worksheet_to_csv wb sheet wtr = .ok wtr := by
  simp only [worksheet_to_csv, hfind, rangeToCsv, if_pos hz]

/-- Witness for zero_dimension_no_records on a concrete zero-row sheet. -/
theorem zero_dimension_no_records_witness :
    worksheet_to_csv wbZero "s" emptyWriter = .ok emptyWriter :=
  zero_dimension_no_records wbZero "s" ⟨(0, 3), []⟩ emptyWriter rfl (Or.inl rfl)

/-- C10: with an empty reported sheet-name list the run aborts with the
zero-sheet diagnostic before any of the four output modes runs, whatever
the configuration says. -/
theorem zero_sheet_abort (opt : Opt) (wb : Workbook) (h : wb.sheet_names = []) :
    runMain opt wb = .aborted "input file has zero sheet!" := by
  unfold runMain
  simp [h]

/-- Witness for zero_sheet_abort: even in list mode nothing is listed. -/
theorem zero_sheet_abort_witness :
    runMain optList wbNoSheets = .aborted "input file has zero sheet!" :=
  zero_sheet_abort optList wbNoSheets rfl

/-- Every character occupies at least one UTF-8 byte. -/
theorem charBytes_pos (c : Char) : 1 ≤ charBytes c := by
  unfold charBytes
  split
  · omega
  · split
    · omega
    · split <;> omega

/-- A character occupies exactly one UTF-8 byte iff it is ASCII. -/
theorem charBytes_eq_one (c : Char) : charBytes c = 1 ↔ asciiChar c = true := by
  unfold charBytes asciiChar
  by_cases h : c.toNat ≤ 127
  · simp [h]
  · simp only [h, if_false, decide_eq_true_eq]
    constructor
    · intro hh
      split at hh
      · omega
      · split at hh <;> omega
    · intro hh
      exact hh.elim

/-- The byte length of a text is one iff it is a single ASCII character. -/
theorem rustLen_one (s : String) :
    rustLen s = 1 ↔ ∃ c, s.data = [c] ∧ asciiChar c = true := by
  unfold rustLen
  cases hd : s.data with
  | nil => simp
  | cons c t =>
    cases t with
    | nil => simp [charBytes_eq_one]
    | cons d u =>
      have h1 := charBytes_pos c
      have h2 := charBytes_pos d
      constructor
      · intro hh
        simp only [List.map_cons, List.sum_cons] at hh
        omega
      · rintro ⟨e, he, _⟩
        simp at he

/-- A single ASCII character parses to its own byte. -/
theorem delim_ok_single (s : String) (c : Char) (hdata : s.data = [c])
    (hascii : asciiChar c = true) :
    Delimiter.from_str s = .ok ⟨c.toNat⟩ := by
  have ht : s ≠ "\\t" := by
    intro he
    rw [he, show ("\\t" : String).data = ['\\', 't'] from rfl] at hdata
    simp at hdata
  have hn : s ≠ "\\n" := by
    intro he
    rw [he, show ("\\n" : String).data = ['\\', 'n'] from rfl] at hdata
    simp at hdata
  have hlen : rustLen s = 1 := (rustLen_one s).mpr ⟨c, hdata, hascii⟩
  unfold Delimiter.from_str
  rw [if_neg ht, if_neg hn, if_neg (by simp [hlen])]
  simp only [hdata]
  rw [if_pos hascii]

/-- C6: delimiter parsing succeeds exactly on the two escape literals and
on single ASCII characters (with the stated byte values); every other
input fails with an error. -/
theorem delimiter_parse_contract :
    Delimiter.from_str "\\t" = .ok ⟨9⟩ ∧
    Delimiter.from_str "\\n" = .ok ⟨10⟩ ∧
    (∀ (s : String) (c : Char), s.data = [c] → asciiChar c = true →
      Delimiter.from_str s = .ok ⟨c.toNat⟩) ∧
    (∀ s : String,
      (∃ msg, Delimiter.from_str s = .error msg) ↔
        ¬(s = "\\t" ∨ s = "\\n" ∨ ∃ c, s.data = [c] ∧ asciiChar c = true)) := by
  refine ⟨by decide, by decide, fun s c hd ha => delim_ok_single s c hd ha, ?_⟩
  intro s
  constructor
  · rintro ⟨msg, hmsg⟩ (h | h | ⟨c, hc, ha⟩)
    · subst h
      rw [show Delimiter.from_str "\\t" = .ok ⟨9⟩ from by decide] at hmsg
      exact Except.noConfusion hmsg
    · subst h
      rw [show Delimiter.from_str "\\n" = .ok ⟨10⟩ from by decide] at hmsg
      exact Except.noConfusion hmsg
    · rw [delim_ok_single s c hc ha] at hmsg
      exact Except.noConfusion hmsg
  · intro hne
    have h1 : s ≠ "\\t" := fun he => hne (Or.inl he)
    have h2 : s ≠ "\\n" := fun he => hne (Or.inr (Or.inl he))
    have h3 : ¬∃ c, s.data = [c] ∧ asciiChar c = true :=
      fun he => hne (Or.inr (Or.inr he))
    unfold Delimiter.from_str
    rw [if_neg h1, if_neg h2]
    by_cases hl : rustLen s = 1
    · exact absurd ((rustLen_one s).mp hl) h3
    · rw [if_pos hl]
      exact ⟨_, rfl⟩

/-- Witness for delimiter_parse_contract: a semicolon succeeds with its
byte, a two-character text fails. -/
theorem delimiter_parse_contract_witness :
    Delimiter.from_str ";" = .ok ⟨59⟩ ∧
    (∃ msg, Delimiter.from_str "ab" = .error msg) := by
  constructor
  · exact delimiter_parse_contract.2.2.1 ";" ';' rfl rfl
  · refine (delimiter_parse_contract.2.2.2 "ab").mpr ?_
    rintro (h | h | ⟨c, hc, _⟩)
    · exact absurd h (by decide)
    · exact absurd h (by decide)
    · rw [show ("ab" : String).data = ['a', 'b'] from rfl] at hc
      simp at hc

/-- When every range lookup succeeds, the per-file loop writes one file
per pair: the output path with that sheet's converted writer. -/
theorem writeSheets_ok (wb : Workbook) (hr : ∀ s, (wb.ranges s).isSome) :
    ∀ pairs : List (String × String),
      writeSheets wb pairs = .ok (pairs.map fun p => (p.2, convertSheet wb p.1)) := by
  intro pairs
  induction pairs with
  | nil => rfl
  | cons p rest ih =>
    obtain ⟨sheet, output⟩ := p
    have h := hr sheet
    have hcv : worksheet_to_csv wb sheet emptyWriter = .ok (convertSheet wb sheet) := by
      cases hx : wb.ranges sheet with
      | some r => simp [worksheet_to_csv, convertSheet, hx]
      | none => rw [hx] at h; cases h
    simp [writeSheets, hcv, ih]

/-- C1: in named-files mode a sheet name survives the two chained filters
iff it matches the include pattern (or none was given) and does not match
the exclude pattern (or none was given); on the spec's example exactly
Sheet1 survives, and the mode writes exactly the survivors' files. -/
theorem named_files_filter :
    (∀ (names : List String) (inc exc : Option (String → Bool)) (name : String),
      name ∈ namedSurvivors names inc exc ↔
        name ∈ names ∧
          (match inc with | none => True | some r => r name = true) ∧
          (match exc with | none => True | some r => r name = false)) ∧
    namedSurvivors ["Sheet1", "Data", "SheetX"]
      (some (litMatch "Sheet")) (some (litMatch "X")) = ["Sheet1"] ∧
    (∀ (opt : Opt) (wb : Workbook), wb.sheet_names ≠ [] → opt.list = false →
      opt.use_sheet_names = true → (∀ s, (wb.ranges s).isSome) →
      runMain opt wb = .files (namedFiles wb opt)) := by
  refine ⟨?_, by decide, ?_⟩
  · intro names inc exc name
    cases inc <;> cases exc <;>
      simp [namedSurvivors, List.mem_filter, and_assoc]
    tauto
  · intro opt wb hs hl hu hr
    simp only [runMain]
    rw [if_neg (by simp [hs]), if_neg (by simp [hl]), if_pos (by simp [hu])]
    rw [writeSheets_ok wb hr]
    simp [namedFiles, List.map_map, Function.comp]

/-- Witness for named_files_filter on the spec example. -/
theorem named_files_filter_witness :
    runMain optNamed wbNamed = .files (namedFiles wbNamed optNamed) ∧
    "Sheet1" ∈ namedSurvivors ["Sheet1", "Data", "SheetX"]
      (some (litMatch "Sheet")) (some (litMatch "X")) := by
  constructor
  · exact named_files_filter.2.2 optNamed wbNamed (by decide) rfl rfl (fun s => rfl)
  · exact (named_files_filter.1 ["Sheet1", "Data", "SheetX"] _ _ "Sheet1").mpr
      ⟨by decide, by decide, by decide⟩

/-- getD over a zipped-then-mapped list reads the two sources pointwise. -/
theorem getD_zip_map {α β γ : Type} (f : α × β → γ) (d : γ) (da : α) (db : β) :
    ∀ (l1 : List α) (l2 : List β) (i : Nat), i < l1.length → i < l2.length →
      ((l1.zip l2).map f).getD i d = f (l1.getD i da, l2.getD i db) := by
  intro l1
  induction l1 with
  | nil =>
    intro l2 i h1 h2
    simp at h1
  | cons a t ih =>
    intro l2 i h1 h2
    cases l2 with
    | nil => simp at h2
    | cons b u =>
      cases i with
      | zero => rfl
      | succ j =>
        simp only [List.zip_cons_cons, List.map_cons, List.getD_cons_succ]
        exact ih u j (by simpa using h1) (by simpa using h2)

/-- C2: in positional-files mode the run writes exactly
min(sheets, outputs) files with no error, pairing sheet i with output
path i in order; whatever lies beyond the shorter sequence is dropped. -/
theorem positional_files_pairing (wb : Workbook) (opt : Opt)
    (hs : wb.sheet_names ≠ []) (hl : opt.list = false)
    (hu : opt.use_sheet_names = false) (ho : opt.output ≠ [])
    (hr : ∀ s, (wb.ranges s).isSome) :
    runMain opt wb = .files (positionalFiles wb opt) ∧
    (positionalFiles wb opt).length = min wb.sheet_names.length opt.output.length ∧
    ∀ i : Nat, i < min wb.sheet_names.length opt.output.length →
      (positionalFiles wb opt).getD i ("", emptyWriter) =
        (opt.output.getD i "", convertSheet wb (wb.sheet_names.getD i "")) := by
  refine ⟨?_, ?_, ?_⟩
  · simp only [runMain]
    rw [if_neg (by simp [hs]), if_neg (by simp [hl]), if_neg (by simp [hu]),
      if_neg (by simp [ho])]
    rw [writeSheets_ok wb hr]
    rfl
  · simp [positionalFiles, List.length_zip]
  · intro i hi
    have h1 : i < wb.sheet_names.length := lt_of_lt_of_le hi (min_le_left _ _)
    have h2 : i < opt.output.length := lt_of_lt_of_le hi (min_le_right _ _)
    have hg := getD_zip_map (fun p => (p.2, convertSheet wb p.1)) ("", emptyWriter)
      "" "" wb.sheet_names opt.output i h1 h2
    simpa [positionalFiles] using hg

/-- Witness for positional_files_pairing: three sheets, two outputs,
exactly two files. -/
theorem positional_files_pairing_witness :
    runMain optPos wbPos = .files (positionalFiles wbPos optPos) ∧
    (positionalFiles wbPos optPos).length =
      min wbPos.sheet_names.length optPos.output.length ∧
    (positionalFiles wbPos optPos).getD 0 ("", emptyWriter) =
      (optPos.output.getD 0 "", convertSheet wbPos (wbPos.sheet_names.getD 0 "")) ∧
    (positionalFiles wbPos optPos).getD 1 ("", emptyWriter) =
      (optPos.output.getD 1 "", convertSheet wbPos (wbPos.sheet_names.getD 1 "")) := by
  have h := positional_files_pairing wbPos optPos (by decide) rfl rfl (by decide)
    (fun s => rfl)
  exact ⟨h.1, h.2.1, h.2.2 0 (by decide), h.2.2 1 (by decide)⟩
